import Mathlib

/-!
Verification development for the indie-wiki-buddy-scripts repository.

The Python modules under scrutiny (addredirect.py, mediawiki_tools.py,
utils.py, scrapewiki.py, wikidot_tools.py, profilewiki.py, ...) are shallowly
embedded below: pure fragments become Lean functions, dict lookups that can
raise KeyError become Except values, Python exceptions (AssertionError,
IndexError, TypeError, AttributeError) are surfaced as error values, and the
I/O boundary (HTTP responses, file writes) is made explicit as function
inputs and outputs.
-/

/-! ## Python string primitives

Small executable models of the Python `str` methods the scripts use. -/

/-- Whether the needle occurs at the very start of the haystack
(character-list version). All string manipulation below works on character
lists with structural recursion, so that every definition evaluates inside
the kernel. -/
def charsHasStart : List Char → List Char → Bool
  | [], _ => true
  | _ :: _, [] => false
  | a :: as, b :: bs => a == b && charsHasStart as bs

/-- Whether the needle occurs anywhere in the haystack (character-list
version). -/
def charsHasSub (needle : List Char) : List Char → Bool
  | [] => charsHasStart needle []
  | b :: bs => charsHasStart needle (b :: bs) || charsHasSub needle bs

/-- Model of the Python membership test `needle in haystack` on strings. -/
def pyIn (needle haystack : String) : Bool :=
  charsHasSub needle.data haystack.data

/-- Model of Python str.startswith for a single candidate. -/
def pyStartsWith (s p : String) : Bool :=
  charsHasStart p.data s.data

/-- Model of Python str.removeprefix: drop the prefix when present, else return
the string unchanged. -/
def pyRemoveStart (s p : String) : String :=
  if charsHasStart p.data s.data then ⟨s.data.drop p.data.length⟩ else s

/-- Model of Python str.removesuffix: drop the suffix when present, else return
the string unchanged. -/
def pyRemoveEnd (s p : String) : String :=
  if p.data.isSuffixOf s.data then ⟨s.data.take (s.data.length - p.data.length)⟩ else s

/-- Model of Python str.lower restricted to its ASCII behaviour (all the
strings it is applied to here are hostnames). -/
def pyLower (s : String) : String :=
  ⟨s.data.map Char.toLower⟩

/-- Replace every non-overlapping occurrence of the pattern, scanning left to
right (character-list version, fuelled so the recursion is structural). -/
def charsReplaceAux (pat repl : List Char) : Nat → List Char → List Char
  | _, [] => []
  | 0, s => s
  | fuel + 1, c :: cs =>
      if charsHasStart pat (c :: cs) then
        repl ++ charsReplaceAux pat repl fuel ((c :: cs).drop pat.length)
      else
        c :: charsReplaceAux pat repl fuel cs

/-- Model of Python str.replace(pat, repl) for a non-empty pattern. -/
def pyReplace (s pat repl : String) : String :=
  if pat.data.isEmpty then s
  else ⟨charsReplaceAux pat.data repl.data s.data.length s.data⟩

/-- Model of Python s.split(sep)[0] for a one-character separator: the
characters before the first occurrence of the separator (the whole string
when the separator does not occur). -/
def pySplitFirst (sep : Char) (s : String) : String :=
  ⟨s.data.takeWhile (fun c => c != sep)⟩

/-- Model of pandas Series.unique element order: keep the first occurrence of
every element (fuelled so the recursion is structural; the fuel is the list
length, which bounds the recursion depth). -/
def pyUniqueAux : Nat → List String → List String
  | _, [] => []
  | 0, l => l
  | fuel + 1, a :: t => a :: pyUniqueAux fuel (t.filter (fun b => b != a))

/-- Model of pandas Series.unique. -/
def pyUnique (l : List String) : List String :=
  pyUniqueAux l.length l

/-! ## URL helpers (utils.py)

The scripts only ever parse URLs of the shapes produced by
normalize_url_protocol, i.e. strings of the form scheme://netloc/rest.
urlparseLite models urllib.parse.urlparse restricted to those shapes:
the scheme is the text before the first "://", the netloc runs to the next
"/" or "?", and the rest is the path plus query. -/

structure UrlParts where
  scheme : String
  netloc : String
  rest : String
deriving DecidableEq, Repr

/-- Split a character list at the first occurrence of a separator; the
separator itself is dropped. -/
def charsBreak (sep : List Char) : List Char → Option (List Char × List Char)
  | [] => none
  | c :: cs =>
      if charsHasStart sep (c :: cs) then some ([], (c :: cs).drop sep.length)
      else
        match charsBreak sep cs with
        | some (b, a) => some (c :: b, a)
        | none => none

/-- Model of urllib.parse.urlparse for scheme://netloc/rest URLs. -/
def urlparseLite (url : String) : UrlParts :=
  match charsBreak "://".data url.data with
  | none => { scheme := "", netloc := "", rest := url }
  | some (before, after) =>
      let netlocChars := after.takeWhile (fun c => c != '/' && c != '?')
      { scheme := ⟨before⟩, netloc := ⟨netlocChars⟩, rest := ⟨after.drop netlocChars.length⟩ }

/-- Model of urllib.parse.urlunparse for the components the scripts use. -/
def urlunparseLite (p : UrlParts) : String :=
  p.scheme ++ "://" ++ p.netloc ++ p.rest

/-- Model of urlparse(...).hostname: the netloc without user info (the part
after the last "@") and without the port (the part before the first ":"),
lower-cased. -/
def hostnameOf (netloc : String) : String :=
  let afterAt := ((netloc.data.reverse.takeWhile (fun c => c != '@')).reverse)
  pyLower ⟨afterAt.takeWhile (fun c => c != ':')⟩

/-- Model of Python str(x) applied to an Optional hostname: None prints as
"None". -/
def pyStrOpt (s : Option String) : String :=
  match s with
  | some v => v
  | none => "None"

/-- Embeds utils.normalize_url_protocol (utils.py lines 69-82): enforce that
the URL specifies a protocol, defaulting to https. -/
def normalize_url_protocol (url : String) (default_protocol : String := "https") : String :=
  if pyStartsWith url "http://" || pyStartsWith url "https://" then url
  else if pyStartsWith url "//" then default_protocol ++ ":" ++ url
  else default_protocol ++ "://" ++ url

/-! ## Data model of the sites JSON dataset (addredirect.py) -/

structure OriginEntry where
  origin : String
  origin_base_url : String
  origin_content_path : String
  origin_main_page : String
deriving DecidableEq, Repr

structure RedirectEntry where
  id : String
  origins_label : String
  origins : List OriginEntry
  destination : String
  destination_base_url : String
  destination_platform : String
  destination_icon : Option String
  destination_main_page : String
  destination_search_path : String
  tags : Option (List String)
deriving DecidableEq, Repr

/-- Embeds addredirect.validate_origin_uniqueness (addredirect.py lines
525-538): the first entry whose origins list contains the proposed origin
URL, if any. -/
def validate_origin_uniqueness (sites_json : List RedirectEntry)
    (new_origin_base_url : String) : Option RedirectEntry :=
  sites_json.find? (fun json_entry =>
    json_entry.origins.any (fun json_origin_entry =>
      json_origin_entry.origin_base_url == new_origin_base_url))

/-- Embeds addredirect.validate_destination_uniqueness (addredirect.py lines
541-553): the first entry with the proposed destination URL, if any. -/
def validate_destination_uniqueness (sites_json : List RedirectEntry)
    (new_destination_url : String) : Option RedirectEntry :=
  sites_json.find? (fun json_entry =>
    json_entry.destination_base_url == new_destination_url)

/-- Embeds addredirect.entry_id_is_unique (addredirect.py lines 556-568). -/
def entry_id_is_unique (sites_json : List RedirectEntry) (new_entry_id : String) : Bool :=
  !(sites_json.any (fun json_entry => json_entry.id == new_entry_id))

/-- The in-place append existing_destination_redirect["origins"].append(...)
of addredirect.py line 615: the first entry whose destination matches gets the
new origin appended; every other entry is left as it is. -/
def append_origin : List RedirectEntry → String → OriginEntry → List RedirectEntry
  | [], _, _ => []
  | e :: rest, url, o =>
      if e.destination_base_url == url then
        { e with origins := e.origins ++ [o] } :: rest
      else
        e :: append_origin rest url o

/-- The destination_icon update of addredirect.py lines 633-636: when
download_wiki_icon succeeded (modelled by the icon_filename argument being
some name), the inserted entry's destination_icon is set to the filename. -/
def update_entry_icon (e : RedirectEntry) (icon_filename : Option String) : RedirectEntry :=
  match icon_filename with
  | some fn => { e with destination_icon := some fn }
  | none => e

/-- Ordering used by redirects_list.sort(key=lambda entry: entry["id"])
(addredirect.py line 625). -/
def entryIdLe (a b : RedirectEntry) : Bool :=
  decide (a.id ≤ b.id)

/-- Observable outcome of one add_redirect_entry call: the Python return
value, the contents written to the sites JSON file (if the write on line 648
was reached), and the uncaught exception, if one was raised. -/
structure AddOutcome where
  returnedId : Option String
  written : Option (List RedirectEntry)
  raised : Option String
deriving DecidableEq, Repr

/-- Embeds addredirect.add_redirect_entry (addredirect.py lines 586-651).

The sites JSON contents read on line 601 are the redirects_list argument;
the outcome of the icon download attempted on the new-destination branch is
the icon_filename argument (none when no icon URL was supplied or the
download failed). The three branches are:
  1. the first origin of the new entry already redirects somewhere: return
     None without touching the file;
  2. the destination already has an entry: append the new origin to it;
  3. otherwise assert the id is unused, append the entry, re-sort by id.
A write to the sites JSON file happens only on branches 2 and 3. -/
def add_redirect_entry (redirects_list : List RedirectEntry) (new_entry : RedirectEntry)
    (icon_filename : Option String) : AddOutcome :=
  match new_entry.origins.head? with
  | none => { returnedId := none, written := none, raised := some "IndexError" }
  | some new_origin_entry =>
    match validate_origin_uniqueness redirects_list new_origin_entry.origin_base_url with
    | some _ => { returnedId := none, written := none, raised := none }
    | none =>
      match validate_destination_uniqueness redirects_list new_entry.destination_base_url with
      | some existing_destination_redirect =>
          let merged := append_origin redirects_list new_entry.destination_base_url new_origin_entry
          { returnedId := some existing_destination_redirect.id,
            written := some merged, raised := none }
      | none =>
          if entry_id_is_unique redirects_list new_entry.id then
            let inserted_entry := update_entry_icon new_entry icon_filename
            let sorted := (redirects_list ++ [inserted_entry]).mergeSort entryIdLe
            { returnedId := some inserted_entry.id, written := some sorted, raised := none }
          else
            { returnedId := none, written := none, raised := some "AssertionError" }

/-! ## Lemmas about the merge algorithm -/

/-- The comparison passed to sort is transitive. -/
theorem entryIdLe_trans : ∀ (a b c : RedirectEntry),
    entryIdLe a b → entryIdLe b c → entryIdLe a c := by
  intro a b c hab hbc
  simp only [entryIdLe, decide_eq_true_eq] at *
  exact le_trans hab hbc

/-- The comparison passed to sort is total. -/
theorem entryIdLe_total : ∀ (a b : RedirectEntry), entryIdLe a b || entryIdLe b a := by
  intro a b
  simp only [entryIdLe, Bool.or_eq_true, decide_eq_true_eq]
  exact le_total a.id b.id

/-- Setting the icon filename never changes the entry id. -/
theorem update_entry_icon_id (e : RedirectEntry) (icon : Option String) :
    (update_entry_icon e icon).id = e.id := by
  cases icon <;> rfl

/-- When no entry holds the proposed origin, the origin-uniqueness scan
returns None. -/
theorem validate_origin_uniqueness_eq_none (l : List RedirectEntry) (u : String)
    (h : ∀ je ∈ l, ∀ jo ∈ je.origins, jo.origin_base_url ≠ u) :
    validate_origin_uniqueness l u = none := by
  rw [validate_origin_uniqueness, List.find?_eq_none]
  intro je hje
  simp only [List.any_eq_true, beq_iff_eq, not_exists, not_and]
  intro jo hjo
  exact h je hje jo hjo

/-- When some entry holds the proposed origin, the origin-uniqueness scan
returns an entry, hence the call is rejected. -/
theorem validate_origin_uniqueness_isSome (l : List RedirectEntry) (u : String)
    (h : ∃ je ∈ l, ∃ jo ∈ je.origins, jo.origin_base_url = u) :
    (validate_origin_uniqueness l u).isSome := by
  rw [validate_origin_uniqueness, List.find?_isSome]
  obtain ⟨je, hje, jo, hjo, hu⟩ := h
  refine ⟨je, hje, ?_⟩
  simp only [List.any_eq_true, beq_iff_eq]
  exact ⟨jo, hjo, hu⟩

/-- Helper shared by the C1 and C10 theorems: with the first origin already
redirected, add_redirect_entry returns None, writes nothing and raises
nothing. -/
theorem add_redirect_entry_of_origin_dup (l : List RedirectEntry) (e : RedirectEntry)
    (icon : Option String) (o : OriginEntry) (ho : e.origins.head? = some o)
    (hdup : ∃ je ∈ l, ∃ jo ∈ je.origins, jo.origin_base_url = o.origin_base_url) :
    add_redirect_entry l e icon =
      { returnedId := none, written := none, raised := none } := by
  obtain ⟨je, hfind⟩ := Option.isSome_iff_exists.mp
    (validate_origin_uniqueness_isSome l o.origin_base_url hdup)
  unfold add_redirect_entry
  rw [ho]
  simp only [hfind]

/-- The destination-uniqueness scan and the in-place origin append, expressed
through the index of the first entry whose destination matches: the scan
returns exactly that entry, and the append rewrites exactly that position,
leaving every other entry untouched. -/
theorem dest_match_characterization (u : String) (o : OriginEntry) :
    ∀ (l : List RedirectEntry) (i : Nat) (hi : i < l.length) (je : RedirectEntry),
      l.get ⟨i, hi⟩ = je →
      je.destination_base_url = u →
      (∀ j (hj : j < l.length), j < i → (l.get ⟨j, hj⟩).destination_base_url ≠ u) →
      validate_destination_uniqueness l u = some je ∧
        append_origin l u o = l.set i { je with origins := je.origins ++ [o] }
  | [], i, hi, _, _, _, _ => absurd hi (by simp)
  | e :: rest, 0, hi, je, hget, hmatch, _ => by
      have he : e = je := by simpa using hget
      subst he
      constructor
      · rw [validate_destination_uniqueness]
        exact List.find?_cons_of_pos _ (by simpa using hmatch)
      · simp only [append_origin, beq_iff_eq, hmatch, if_pos, List.set_cons_zero]
  | e :: rest, i + 1, hi, je, hget, hmatch, hfirst => by
      have hhead : e.destination_base_url ≠ u := by
        have := hfirst 0 (by simp) (Nat.succ_pos i)
        simpa using this
      have hi' : i < rest.length := Nat.lt_of_succ_lt_succ hi
      have hget' : rest.get ⟨i, hi'⟩ = je := by
        simpa using hget
      have hfirst' : ∀ j (hj : j < rest.length), j < i →
          (rest.get ⟨j, hj⟩).destination_base_url ≠ u := by
        intro j hj hji
        have := hfirst (j + 1) (by simpa using Nat.succ_lt_succ hj) (Nat.succ_lt_succ hji)
        simpa using this
      obtain ⟨hf, ha⟩ := dest_match_characterization u o rest i hi' je hget' hmatch hfirst'
      constructor
      · rw [validate_destination_uniqueness]
        rw [List.find?_cons_of_neg _ (by simpa using hhead)]
        simpa using hf
      · simp only [append_origin, beq_iff_eq, hhead, if_neg, if_false, List.set_cons_succ]
        rw [ha]

/-- When no entry has the proposed destination, the destination-uniqueness
scan returns None. -/
theorem validate_destination_uniqueness_eq_none (l : List RedirectEntry) (u : String)
    (h : ∀ je ∈ l, je.destination_base_url ≠ u) :
    validate_destination_uniqueness l u = none := by
  rw [validate_destination_uniqueness, List.find?_eq_none]
  intro je hje
  simpa using h je hje

/-- Helper shared with the C10 theorem: whenever add_redirect_entry reaches
the file write, it also returns an entry id, i.e. the write happens only on
the two success branches. -/
theorem add_redirect_entry_written_implies_ok (l : List RedirectEntry)
    (e : RedirectEntry) (icon : Option String) :
    (add_redirect_entry l e icon).written ≠ none →
    ∃ s, (add_redirect_entry l e icon).returnedId = some s := by
  unfold add_redirect_entry
  split
  · simp
  · split
    · simp
    · split
      · exact fun _ => ⟨_, rfl⟩
      · split
        · exact fun _ => ⟨_, rfl⟩
        · simp

/-! ## Claims C1 and C10: the dataset merge algorithm -/

/-- Claim C1: add_redirect_entry implements the three-branch insert algorithm.
If the new entry's first origin_base_url already appears in some existing
entry's origins list, the insertion is rejected (None is returned).
Otherwise, if some existing entry has the same destination_base_url, exactly
one element (the new origin) is appended to that entry's origins and no other
entry is modified. Otherwise, under the precondition that the new id is
absent from the dataset, the new entry is appended and the resulting list is
sorted in ascending id order. -/
theorem add_redirect_entry_three_branch_insert
    (l : List RedirectEntry) (e : RedirectEntry) (icon : Option String)
    (o : OriginEntry) (ho : e.origins.head? = some o) :
    ((∃ je ∈ l, ∃ jo ∈ je.origins, jo.origin_base_url = o.origin_base_url) →
        add_redirect_entry l e icon =
          { returnedId := none, written := none, raised := none })
    ∧ ((∀ je ∈ l, ∀ jo ∈ je.origins, jo.origin_base_url ≠ o.origin_base_url) →
        ∀ (i : Nat) (hi : i < l.length) (je : RedirectEntry), l.get ⟨i, hi⟩ = je →
        je.destination_base_url = e.destination_base_url →
        (∀ j (hj : j < l.length), j < i →
            (l.get ⟨j, hj⟩).destination_base_url ≠ e.destination_base_url) →
        add_redirect_entry l e icon =
          { returnedId := some je.id,
            written := some (l.set i { je with origins := je.origins ++ [o] }),
            raised := none })
    ∧ ((∀ je ∈ l, ∀ jo ∈ je.origins, jo.origin_base_url ≠ o.origin_base_url) →
        (∀ je ∈ l, je.destination_base_url ≠ e.destination_base_url) →
        entry_id_is_unique l e.id = true →
        add_redirect_entry l e icon =
          { returnedId := some e.id,
            written := some ((l ++ [update_entry_icon e icon]).mergeSort entryIdLe),
            raised := none } ∧
        ((l ++ [update_entry_icon e icon]).mergeSort entryIdLe).Perm
          (l ++ [update_entry_icon e icon]) ∧
        List.Pairwise (fun a b => a.id ≤ b.id)
          ((l ++ [update_entry_icon e icon]).mergeSort entryIdLe)) := by
  refine ⟨?_, ?_, ?_⟩
  · intro hdup
    exact add_redirect_entry_of_origin_dup l e icon o ho hdup
  · intro hno i hi je hget hdm hfirst
    obtain ⟨hv, ha⟩ := dest_match_characterization e.destination_base_url o l i hi je
      hget hdm hfirst
    unfold add_redirect_entry
    simp only [ho, validate_origin_uniqueness_eq_none l _ hno, hv, ha]
  · intro hno hnd hid
    have h1 := validate_origin_uniqueness_eq_none l _ hno
    have h2 := validate_destination_uniqueness_eq_none l _ hnd
    refine ⟨?_, List.mergeSort_perm _ _, ?_⟩
    · unfold add_redirect_entry
      simp only [ho, h1, h2, hid, eq_self_iff_true, if_true, update_entry_icon_id]
    · exact (List.sorted_mergeSort entryIdLe_trans entryIdLe_total _).imp
        (fun h => of_decide_eq_true h)

/-- Sample dataset entries used by the concrete witnesses. -/
def originZelda : OriginEntry :=
  { origin := "Zelda Fandom Wiki", origin_base_url := "zelda.fandom.com",
    origin_content_path := "/wiki/", origin_main_page := "Main_Page" }

/-- New entry proposed for insertion in the witnesses. -/
def entryZelda : RedirectEntry :=
  { id := "en-zelda", origins_label := "Zelda Fandom Wiki", origins := [originZelda],
    destination := "Zelda Wiki", destination_base_url := "zelda.wiki.gg",
    destination_platform := "mediawiki", destination_icon := none,
    destination_main_page := "Main_Page", destination_search_path := "/index.php?search=",
    tags := some ["wiki.gg"] }

/-- Existing entry that already redirects the origin zelda.fandom.com. -/
def entryZeldaTaken : RedirectEntry :=
  { id := "en-hyrule", origins_label := "Hyrule Fandom Wiki",
    origins := [{ origin := "Hyrule Fandom Wiki", origin_base_url := "zelda.fandom.com",
                  origin_content_path := "/wiki/", origin_main_page := "Main_Page" }],
    destination := "Hyrule Wiki", destination_base_url := "hyrule.wiki.gg",
    destination_platform := "mediawiki", destination_icon := some "hyrulewiki.png",
    destination_main_page := "Main_Page", destination_search_path := "/index.php?search=",
    tags := some ["wiki.gg"] }

/-- Existing entry with the same destination as entryZelda but a different
origin. -/
def entryHyrule : RedirectEntry :=
  { id := "en-hyrule", origins_label := "Hyrule Fandom Wiki",
    origins := [{ origin := "Hyrule Fandom Wiki", origin_base_url := "hyrule.fandom.com",
                  origin_content_path := "/wiki/", origin_main_page := "Main_Page" }],
    destination := "Zelda Wiki", destination_base_url := "zelda.wiki.gg",
    destination_platform := "mediawiki", destination_icon := some "zeldawiki.png",
    destination_main_page := "Main_Page", destination_search_path := "/index.php?search=",
    tags := some ["wiki.gg"] }

/-- Existing entry unrelated to entryZelda. -/
def entryTerraria : RedirectEntry :=
  { id := "en-terraria", origins_label := "Terraria Fandom Wiki",
    origins := [{ origin := "Terraria Fandom Wiki", origin_base_url := "terraria.fandom.com",
                  origin_content_path := "/wiki/", origin_main_page := "Main_Page" }],
    destination := "Terraria Wiki", destination_base_url := "terraria.wiki.gg",
    destination_platform := "mediawiki", destination_icon := some "terrariawiki.png",
    destination_main_page := "Main_Page", destination_search_path := "/index.php?search=",
    tags := some ["wiki.gg"] }

/-- Witness for claim C1: each of the three branches evaluated on concrete
data. -/
theorem add_redirect_entry_three_branch_insert_witness :
    (add_redirect_entry [entryZeldaTaken] entryZelda none =
      { returnedId := none, written := none, raised := none })
    ∧ (add_redirect_entry [entryHyrule] entryZelda none =
      { returnedId := some entryHyrule.id,
        written := some ([entryHyrule].set 0
          { entryHyrule with origins := entryHyrule.origins ++ [originZelda] }),
        raised := none })
    ∧ (add_redirect_entry [entryTerraria] entryZelda none =
      { returnedId := some entryZelda.id,
        written :=
          some (([entryTerraria] ++ [update_entry_icon entryZelda none]).mergeSort entryIdLe),
        raised := none } ∧
      (([entryTerraria] ++ [update_entry_icon entryZelda none]).mergeSort entryIdLe).Perm
        ([entryTerraria] ++ [update_entry_icon entryZelda none]) ∧
      List.Pairwise (fun a b => a.id ≤ b.id)
        (([entryTerraria] ++ [update_entry_icon entryZelda none]).mergeSort entryIdLe)) := by
  refine ⟨?_, ?_, ?_⟩
  · exact (add_redirect_entry_three_branch_insert [entryZeldaTaken] entryZelda none
      originZelda rfl).1 (by decide)
  · exact (add_redirect_entry_three_branch_insert [entryHyrule] entryZelda none
      originZelda rfl).2.1 (by decide) 0 (by decide) entryHyrule rfl (by decide)
      (by intro j hj hlt; exact absurd hlt (Nat.not_lt_zero j))
  · exact (add_redirect_entry_three_branch_insert [entryTerraria] entryZelda none
      originZelda rfl).2.2 (by decide) (by decide) (by decide)

/-- Claim C10: a rejected insertion (origin already redirected) returns None
without touching the dataset: nothing is written to the sites JSON file; and
in general a file write happens only when the call returns an entry id, i.e.
after a successful merge or append. -/
theorem add_redirect_entry_rejected_no_write
    (l : List RedirectEntry) (e : RedirectEntry) (icon : Option String)
    (o : OriginEntry) (ho : e.origins.head? = some o)
    (hdup : ∃ je ∈ l, ∃ jo ∈ je.origins, jo.origin_base_url = o.origin_base_url) :
    (add_redirect_entry l e icon).returnedId = none ∧
    (add_redirect_entry l e icon).written = none ∧
    ∀ (l2 : List RedirectEntry) (e2 : RedirectEntry) (icon2 : Option String),
      (add_redirect_entry l2 e2 icon2).written ≠ none →
      ∃ s, (add_redirect_entry l2 e2 icon2).returnedId = some s := by
  have h := add_redirect_entry_of_origin_dup l e icon o ho hdup
  rw [h]
  exact ⟨rfl, rfl, fun l2 e2 icon2 => add_redirect_entry_written_implies_ok l2 e2 icon2⟩

/-- Witness for claim C10: the rejected call on concrete data returns None
and writes nothing. -/
theorem add_redirect_entry_rejected_no_write_witness :
    (add_redirect_entry [entryZeldaTaken, entryTerraria] entryZelda none).returnedId = none ∧
    (add_redirect_entry [entryZeldaTaken, entryTerraria] entryZelda none).written = none :=
  ⟨(add_redirect_entry_rejected_no_write [entryZeldaTaken, entryTerraria] entryZelda none
      originZelda rfl (by decide)).1,
   (add_redirect_entry_rejected_no_write [entryZeldaTaken, entryTerraria] entryZelda none
      originZelda rfl (by decide)).2.1⟩

/-! ## Claim C9: the HTTP fallback policy (utils.py) -/

/-- Python exceptions that a requests GET can raise in this model.
requests.exceptions.SSLError and requests.exceptions.ConnectionError are the
two kinds caught by request_with_http_fallback; every other failure kind is
collapsed into otherError, which the function does not catch. -/
inductive PyNetError where
  | sslError
  | connectionError
  | otherError
deriving DecidableEq, Repr

/-- Embeds utils.request_with_http_fallback (utils.py lines 85-116). The
network is modelled as a function from URL to GET outcome; the embedding
returns the Python outcome together with the list of URLs requested, in
order, so that the retry count is observable. On an SSLError or
ConnectionError for a non-http scheme the URL is re-requested once with the
scheme replaced by http; an http-scheme failure, and any failure of the
retry itself, propagates. -/
def request_with_http_fallback {α : Type} (net : String → Except PyNetError α)
    (raw_url : String) : Except PyNetError α × List String :=
  let url := normalize_url_protocol raw_url
  match net url with
  | Except.ok r => (Except.ok r, [url])
  | Except.error e =>
      if e = PyNetError.otherError then
        (Except.error e, [url])
      else
        let parsed := urlparseLite url
        if parsed.scheme ≠ "http" then
          let url2 := urlunparseLite { parsed with scheme := "http" }
          (net url2, [url, url2])
        else
          (Except.error e, [url])

/-- Re-assembling the parsed URL with the scheme replaced by http keeps the
host and path intact. -/
theorem urlunparseLite_http (p : UrlParts) :
    urlunparseLite { p with scheme := "http" } = "http://" ++ p.netloc ++ p.rest := rfl

/-- Claim C9: when the initial GET fails with a TLS-negotiation or transport
connection error, request_with_http_fallback retries exactly once over http
for the same host and path (the attempt list is exactly the original URL
followed by its http twin); a failure of the retry propagates as the
function's result, and when the scheme was already http the error propagates
with no retry. The outcome is always an Except value: the failure is never
swallowed. -/
theorem request_with_http_fallback_policy {α : Type}
    (net : String → Except PyNetError α) (raw_url : String) (e : PyNetError)
    (hcaught : e = PyNetError.sslError ∨ e = PyNetError.connectionError)
    (hfail : net (normalize_url_protocol raw_url) = Except.error e) :
    ((urlparseLite (normalize_url_protocol raw_url)).scheme ≠ "http" →
        request_with_http_fallback net raw_url =
          (net ("http://" ++ (urlparseLite (normalize_url_protocol raw_url)).netloc ++
                  (urlparseLite (normalize_url_protocol raw_url)).rest),
           [normalize_url_protocol raw_url,
            "http://" ++ (urlparseLite (normalize_url_protocol raw_url)).netloc ++
              (urlparseLite (normalize_url_protocol raw_url)).rest]))
    ∧ ((urlparseLite (normalize_url_protocol raw_url)).scheme ≠ "http" →
        ∀ e2, net ("http://" ++ (urlparseLite (normalize_url_protocol raw_url)).netloc ++
                  (urlparseLite (normalize_url_protocol raw_url)).rest) = Except.error e2 →
          (request_with_http_fallback net raw_url).1 = Except.error e2)
    ∧ ((urlparseLite (normalize_url_protocol raw_url)).scheme = "http" →
        request_with_http_fallback net raw_url =
          (Except.error e, [normalize_url_protocol raw_url])) := by
  have hnotother : e ≠ PyNetError.otherError := by
    rcases hcaught with h | h <;> simp [h]
  refine ⟨?_, ?_, ?_⟩
  · intro hscheme
    unfold request_with_http_fallback
    simp only [hfail, if_neg hnotother, if_pos hscheme, urlunparseLite_http]
  · intro hscheme e2 hfail2
    unfold request_with_http_fallback
    simp only [hfail, if_neg hnotother, if_pos hscheme, urlunparseLite_http, hfail2]
  · intro hscheme
    unfold request_with_http_fallback
    have : ¬ (urlparseLite (normalize_url_protocol raw_url)).scheme ≠ "http" := by
      simp [hscheme]
    simp only [hfail, if_neg hnotother, if_neg this]

/-- Concrete network used by the C9 witness: HTTPS fails the TLS handshake,
plain HTTP succeeds. -/
def sampleNet : String → Except PyNetError Nat := fun u =>
  if u = "https://wiki.example.org/wiki/" then Except.error PyNetError.sslError
  else if u = "http://wiki.example.org/wiki/" then Except.ok 200
  else Except.error PyNetError.connectionError

/-- Witness for claim C9: on the sample network, the call retries once over
http and succeeds there, having requested exactly the two URLs. -/
theorem request_with_http_fallback_policy_witness :
    request_with_http_fallback sampleNet "wiki.example.org/wiki/" =
      (Except.ok 200, ["https://wiki.example.org/wiki/", "http://wiki.example.org/wiki/"]) := by
  have h := (request_with_http_fallback_policy sampleNet "wiki.example.org/wiki/"
      PyNetError.sslError (Or.inl rfl) rfl).1 (by decide)
  rw [h]
  rfl

/-! ## MediaWiki siteinfo extraction (mediawiki_tools.py) -/

/-- The general section of a MediaWiki siteinfo response. Fields the API does
not guarantee are Options (the Python code reads them with dict.get). -/
structure SiteinfoGeneral where
  base : String
  sitename : String
  lang : String
  mainpage : String
  generator : String
  articlepath : Option String
  script : Option String
  scriptpath : Option String
  favicon : Option String
  logo : Option String
  wikiid : Option String
  time : Option String
deriving DecidableEq, Repr

structure SiteinfoRightsinfo where
  text : String
  url : String
deriving DecidableEq, Repr

/-- One namespace record of the siteinfo namespaces section; content records
whether the namespace carries the content flag. -/
structure SiteinfoNamespace where
  id : Int
  content : Bool
deriving DecidableEq, Repr

structure SiteinfoStatistics where
  articles : Int
  activeusers : Int
deriving DecidableEq, Repr

/-- A MediaWiki siteinfo response for
siprop=general|namespaces|statistics|rightsinfo. -/
structure Siteinfo where
  general : SiteinfoGeneral
  rightsinfo : Option SiteinfoRightsinfo
  namespaces : List SiteinfoNamespace
  statistics : SiteinfoStatistics
deriving DecidableEq, Repr

/-- The normalized metadata record built by the per-platform profilers. -/
structure WikiMetadata where
  name : String
  base_url : String
  full_language : String
  language : String
  wiki_id : Option String
  wikifarm : Option String
  platform : String
  software_version : String
  protocol : String
  main_page : String
  content_path : String
  search_path : Option String
  icon_path : Option String
  licence_name : Option String
  licence_page : Option String
deriving DecidableEq, Repr

/-- Model of urlparse(url).hostname: None when the URL has no netloc. -/
def pyHostname (url : String) : Option String :=
  let p := urlparseLite url
  if p.netloc = "" then none else some (hostnameOf p.netloc)

/-- Model of urlparse(url).path: the rest of the URL up to the query. -/
def urlPathOf (url : String) : String :=
  ⟨(urlparseLite url).rest.data.takeWhile (fun c => c != '?')⟩

/-- Model of str.endswith for a single candidate. -/
def pyEndsWith (s p : String) : Bool :=
  p.data.isSuffixOf s.data

/-- Embeds utils.ensure_absolute_url (utils.py lines 39-66): copy the donor's
netloc and scheme into the subject URL when they are missing. -/
def ensure_absolute_url (subject_url donor_url : String) : String :=
  let parsed_relative_url := urlparseLite subject_url
  let parsed_absolute_url := urlparseLite donor_url
  let step1 :=
    if parsed_relative_url.netloc = "" then
      { parsed_relative_url with netloc := parsed_absolute_url.netloc }
    else parsed_relative_url
  let step2 :=
    if step1.scheme = "" then { step1 with scheme := parsed_absolute_url.scheme }
    else step1
  urlunparseLite step2

/-- The wikifarm registry of utils.detect_wikifarm (utils.py line 160); the
Python code iterates a set, whose order is unspecified, so the scan order
below only matters when several farm names occur in the same URL. -/
def known_wikifarms : List String := ["shoutwiki", "wiki.gg", "miraheze", "wikitide"]

/-- Embeds utils.detect_wikifarm (utils.py lines 151-166). -/
def detect_wikifarm (url_list : List String) : Option String :=
  known_wikifarms.find? (fun wikifarm => url_list.any (fun url => pyIn wikifarm url))

/-- Character-list helper for version parsing: the leading run of digits and
what follows it. -/
def takeDigits (cs : List Char) : List Char × List Char :=
  (cs.takeWhile (fun c => c.isDigit), cs.dropWhile (fun c => c.isDigit))

/-- The X.Y.Z part of the version regex of extract_mediawiki_version: three
non-empty digit runs joined by dots; trailing text is unconstrained, matching
the unanchored tail of re.match. -/
def parseVersionChars (cs : List Char) : Option String :=
  let p1 := takeDigits cs
  if p1.1.isEmpty then none
  else
    match p1.2 with
    | '.' :: r2 =>
        let p2 := takeDigits r2
        if p2.1.isEmpty then none
        else
          match p2.2 with
          | '.' :: r4 =>
              let p3 := takeDigits r4
              if p3.1.isEmpty then none
              else some ⟨p1.1 ++ '.' :: p2.1 ++ '.' :: p3.1⟩
          | _ => none
    | _ => none

/-- Embeds mediawiki_tools.extract_mediawiki_version (mediawiki_tools.py lines
62-64): re.match of MediaWiki (digits.digits.digits) against the generator
string, returning the captured group; None when the pattern does not match,
in which case the Python caller raises AttributeError. -/
def extract_mediawiki_version (generator_string : String) : Option String :=
  if charsHasStart "MediaWiki ".data generator_string.data then
    parseVersionChars (generator_string.data.drop "MediaWiki ".data.length)
  else none

/-- Embeds mediawiki_tools.extract_metadata_from_siteinfo (mediawiki_tools.py
lines 321-397). Python exceptions become Except.error values carrying the
exception name: the assert for ancient wikis without articlepath
(AssertionError), base_url += None when scriptpath is absent on a Fandom or
wiki.gg host (TypeError), search_path.removeprefix on a missing script field
(AttributeError), and a generator string the version regex does not match
(AttributeError, raised by match.group in extract_mediawiki_version). -/
def extract_metadata_from_siteinfo (siteinfo : Siteinfo) : Except String WikiMetadata :=
  let g := siteinfo.general
  let base_url0 := pyStrOpt (pyHostname g.base)
  let full_language := g.lang
  let normalized_language := pySplitFirst '-' full_language
  let search_path0 := g.script
  let content_path_result : Except String String :=
    match g.articlepath with
    | some ap => Except.ok (pyReplace ap "$1" "")
    | none =>
        let encoded_main_page := pyReplace g.mainpage " " "_"
        let main_page_path := urlPathOf g.base
        if pyEndsWith main_page_path encoded_main_page then
          Except.ok (pyRemoveEnd main_page_path encoded_main_page)
        else
          Except.error "AssertionError"
  match content_path_result with
  | Except.error e => Except.error e
  | Except.ok content_path0 =>
    let folded : Except String (String × String × Option String) :=
      if (pyIn ".fandom.com" base_url0 || pyIn ".wiki.gg" base_url0)
          && decide (g.scriptpath ≠ some "") then
        match g.scriptpath with
        | none => Except.error "TypeError"
        | some script_path =>
            match search_path0 with
            | none => Except.error "AttributeError"
            | some sp =>
                Except.ok (base_url0 ++ script_path,
                  pyRemoveStart content_path0 script_path,
                  some (pyRemoveStart sp script_path))
      else
        Except.ok (base_url0, content_path0, search_path0)
    match folded with
    | Except.error e => Except.error e
    | Except.ok (base_url, content_path, search_path) =>
      let wiki_name :=
        if pyIn ".fandom.com" base_url then pyReplace g.sitename " Wiki" " Fandom Wiki"
        else g.sitename
      let logo_path := g.logo.getD ""
      let wikifarm := detect_wikifarm [base_url, logo_path]
      let favicon_path : Option String :=
        match g.favicon with
        | none => none
        | some fp =>
            if pyStartsWith fp "$" then none
            else some (ensure_absolute_url fp g.base)
      match extract_mediawiki_version g.generator with
      | none => Except.error "AttributeError"
      | some version =>
          Except.ok {
            name := wiki_name,
            base_url := base_url,
            full_language := full_language,
            language := normalized_language,
            wiki_id := g.wikiid,
            wikifarm := wikifarm,
            platform := "mediawiki",
            software_version := version,
            protocol := (urlparseLite g.base).scheme,
            main_page := pyReplace g.mainpage " " "_",
            content_path := content_path,
            search_path := search_path,
            icon_path := favicon_path,
            licence_name := siteinfo.rightsinfo.map (fun r => r.text),
            licence_page := siteinfo.rightsinfo.map (fun r => r.url) }

/-! ## Claim C2: the Fandom language-path folding scenario -/

/-- Claim C2: for a siteinfo response whose general section has
base https://foo.fandom.com/es/, lang es, articlepath /wiki/$1 and
scriptpath /es (and whose script field is present and whose generator
matches the version pattern, as every real MediaWiki response provides),
extract_metadata_from_siteinfo folds the script path into base_url and
strips it from the path fields: base_url is foo.fandom.com/es, content_path
is /wiki/ and language is es. -/
theorem extract_metadata_fandom_scenario
    (si : Siteinfo)
    (hbase : si.general.base = "https://foo.fandom.com/es/")
    (hlang : si.general.lang = "es")
    (hart : si.general.articlepath = some "/wiki/$1")
    (hsp : si.general.scriptpath = some "/es")
    (s v : String)
    (hscript : si.general.script = some s)
    (hgen : extract_mediawiki_version si.general.generator = some v) :
    (extract_metadata_from_siteinfo si).map
        (fun m => (m.base_url, m.content_path, m.language)) =
      Except.ok ("foo.fandom.com/es", "/wiki/", "es") := by
  obtain ⟨g, ri, ns, st⟩ := si
  obtain ⟨base, sitename, lang, mainpage, generator, articlepath, script, scriptpath,
    favicon, logo, wikiid, time⟩ := g
  dsimp only at hbase hlang hart hsp hscript hgen
  subst hbase hlang hart hsp hscript
  unfold extract_metadata_from_siteinfo
  dsimp only
  rw [hgen]
  rfl

/-- Concrete siteinfo response realizing the C2 scenario. -/
def sampleFandomSiteinfo : Siteinfo :=
  { general :=
    { base := "https://foo.fandom.com/es/", sitename := "Foo Wiki", lang := "es",
      mainpage := "Portada", generator := "MediaWiki 1.39.5",
      articlepath := some "/wiki/$1", script := some "/es/index.php",
      scriptpath := some "/es", favicon := some "$wgUploadPath/favicon.ico",
      logo := some "https://static.example.net/foo/images/logo.png",
      wikiid := some "fooes", time := some "2024-01-01T00:00:00Z" },
    rightsinfo := some { text := "CC-BY-SA", url := "https://example.org/licence" },
    namespaces := [{ id := 0, content := true }],
    statistics := { articles := 100, activeusers := 5 } }

/-- Witness for claim C2: the scenario evaluated on the concrete response. -/
theorem extract_metadata_fandom_scenario_witness :
    (extract_metadata_from_siteinfo sampleFandomSiteinfo).map
        (fun m => (m.base_url, m.content_path, m.language)) =
      Except.ok ("foo.fandom.com/es", "/wiki/", "es") :=
  extract_metadata_fandom_scenario sampleFandomSiteinfo rfl rfl rfl rfl
    "/es/index.php" "1.39.5" rfl rfl

/-! ## Claims C6 and C7: MediaWiki recent-changes profiling -/

/-- One row of a MediaWiki recentchanges query result (the query already
excludes bots, restricts the types to edit, new and categorize, and restricts
the namespaces to the content namespaces). -/
structure RCRow where
  user : String
  timestamp : Int
deriving DecidableEq, Repr

/-- Observable result of profile_mediawiki_recentchanges: the values it
returns plus the number of unrestricted fallback queries it issued. -/
structure RCProfile where
  edit_count : Nat
  latest_edit_timestamp : Option Int
  fallback_queries : Nat
deriving DecidableEq, Repr

/-- Embeds mediawiki_tools.profile_mediawiki_recentchanges
(mediawiki_tools.py lines 433-489) relative to its two API queries: window
is the windowed recentchanges result (every qualifying row back to
window_end) and fallback is the result of the single-row query without an
end date, consulted only when the windowed result is empty. The returned
fallback_queries counts how many fallback queries the run issued. -/
def profile_mediawiki_recentchanges (window fallback : List RCRow) : RCProfile :=
  if window.isEmpty then
    { edit_count := 0,
      latest_edit_timestamp := (fallback.map (fun r => r.timestamp)).max?,
      fallback_queries := 1 }
  else
    { edit_count := window.length,
      latest_edit_timestamp := (window.map (fun r => r.timestamp)).max?,
      fallback_queries := 0 }

/-- Activity metrics appended to the metadata by the full MediaWiki profile. -/
structure ActivityMetrics where
  content_pages : Int
  active_users : Int
  recent_edit_count : Nat
  latest_edit_timestamp : Option Int
deriving DecidableEq, Repr

/-- Embeds the full-profile path of mediawiki_tools.profile_mediawiki_wiki
(mediawiki_tools.py lines 492-552): extract the metadata from siteinfo, then
apply the search-path fallback from the API URL (line 525) and the
HTML-scraped icon fallback (lines 527-534, the scrape outcome being the
html_icon argument), then attach the activity metrics of lines 543-550.
content_pages and active_users come from the siteinfo statistics section;
the recent-changes profile supplies the other two. -/
def profile_mediawiki_wiki_full (siteinfo : Siteinfo) (api_url : String)
    (html_icon : Option String) (window fallback : List RCRow) :
    Except String (WikiMetadata × ActivityMetrics) :=
  match extract_metadata_from_siteinfo siteinfo with
  | Except.error e => Except.error e
  | Except.ok m0 =>
      let m1 :=
        if m0.search_path = none then
          { m0 with search_path := some (pyReplace (urlPathOf api_url) "/api.php" "/index.php") }
        else m0
      let m2 := if m1.icon_path = none then { m1 with icon_path := html_icon } else m1
      let rc := profile_mediawiki_recentchanges window fallback
      Except.ok (m2,
        { content_pages := siteinfo.statistics.articles,
          active_users := siteinfo.statistics.activeusers,
          recent_edit_count := rc.edit_count,
          latest_edit_timestamp := rc.latest_edit_timestamp })

/-- The quantity claim C6 describes, written from the spec: the number of
distinct authors among the qualifying recent-changes rows of the window (the
windowed query already excludes bots and anonymous qualifying rows carry
their address as user, so distinct users of the rows is the spec's count). -/
def specDistinctAuthorCount (rows : List RCRow) : Nat :=
  (pyUnique (rows.map (fun r => r.user))).length

/-- Claim C7: when the windowed recent-changes query yields zero rows,
profile_mediawiki_recentchanges issues exactly one unrestricted single-result
query and returns edit count 0; the returned latest_edit_timestamp is the
maximum timestamp of that fallback result, hence non-null exactly when some
qualifying edit exists at all; and when the window is non-empty no fallback
query is issued. -/
theorem profile_recentchanges_window_fallback
    (window fallback : List RCRow) (hw : window = []) :
    profile_mediawiki_recentchanges window fallback =
      { edit_count := 0,
        latest_edit_timestamp := (fallback.map (fun r => r.timestamp)).max?,
        fallback_queries := 1 } ∧
    (fallback ≠ [] →
      (profile_mediawiki_recentchanges window fallback).latest_edit_timestamp ≠ none) ∧
    (fallback = [] →
      (profile_mediawiki_recentchanges window fallback).latest_edit_timestamp = none) ∧
    (∀ w2 f2 : List RCRow, w2 ≠ [] →
      (profile_mediawiki_recentchanges w2 f2).fallback_queries = 0) := by
  subst hw
  refine ⟨rfl, ?_, ?_, ?_⟩
  · intro hf
    cases fallback with
    | nil => exact absurd rfl hf
    | cons r rs => simp [profile_mediawiki_recentchanges, List.max?]
  · intro hf
    subst hf
    rfl
  · intro w2 f2 hw2
    cases w2 with
    | nil => exact absurd rfl hw2
    | cons r rs => rfl

/-- Witness for claim C7: a window with zero rows and a fallback result
holding one edit gives edit count 0, a fallback-query count of 1 and the
fallback row's timestamp. -/
theorem profile_recentchanges_window_fallback_witness :
    profile_mediawiki_recentchanges [] [{ user := "Bob", timestamp := 50 }] =
      { edit_count := 0, latest_edit_timestamp := some 50, fallback_queries := 1 } := by
  have h := (profile_recentchanges_window_fallback [] [{ user := "Bob", timestamp := 50 }] rfl).1
  rw [h]
  rfl

/-- Counterexample to claim C6: on a concrete full profile whose siteinfo
statistics report 5 active users while the in-window recent-changes rows
have a single distinct author, the returned active_users field is 5, the
statistics figure, not the distinct-author count 1. -/
theorem profile_active_users_counterexample :
    (profile_mediawiki_wiki_full sampleFandomSiteinfo "https://foo.fandom.com/es/api.php"
        none [{ user := "Alice", timestamp := 100 }] []).map
        (fun p => p.2.active_users) = Except.ok 5 ∧
    specDistinctAuthorCount [{ user := "Alice", timestamp := 100 }] = 1 ∧
    (5 : Int) ≠ 1 :=
  ⟨rfl, rfl, by decide⟩

/-- Claim C6 amended: in a full MediaWiki profile the returned active_users
field equals the activeusers figure of the siteinfo statistics section
(MediaWiki's own site statistic), not a recount of distinct recent-changes
authors. -/
theorem profile_active_users_eq_statistics
    (si : Siteinfo) (api_url : String) (html_icon : Option String)
    (window fallback : List RCRow) :
    (profile_mediawiki_wiki_full si api_url html_icon window fallback).map
        (fun p => p.2.active_users) =
      (extract_metadata_from_siteinfo si).map (fun _ => si.statistics.activeusers) := by
  unfold profile_mediawiki_wiki_full
  cases extract_metadata_from_siteinfo si with
  | error e => rfl
  | ok m0 => rfl

/-! ## Claim C5: the language fields across the profilers -/

/-- Embeds the language fields of dokuwiki_tools.profile_dokuwiki_wiki
(dokuwiki_tools.py lines 351-352 and 361-362): full_language is the page's
lang attribute, language the text before the first hyphen. The first
component is full_language, the second language. -/
def dokuwiki_language_fields (lang_attr : String) : String × String :=
  (lang_attr, pySplitFirst '-' lang_attr)

/-- Embeds the language fields of wikidot_tools.profile_wikidot_wiki
(wikidot_tools.py lines 176 and 204-205): both fields receive the page's
lang attribute verbatim. -/
def wikidot_language_fields (lang_attr : String) : String × String :=
  (lang_attr, lang_attr)

/-- Embeds the language fields of
fextralife_tools.extract_metadata_from_fextralife_page (fextralife_tools.py
lines 24 and 43-44): both fields receive the page's lang attribute
verbatim. -/
def fextralife_language_fields (lang_attr : String) : String × String :=
  (lang_attr, lang_attr)

/-- Embeds the language fields of minmax_tools.profile_minmax_wiki
(minmax_tools.py lines 93-94): both fields receive the page's lang attribute
verbatim. -/
def minmax_language_fields (lang_attr : String) : String × String :=
  (lang_attr, lang_attr)

/-- Counterexample to claim C5: the Wikidot profiler fed a page whose lang
attribute is en-gb returns language en-gb verbatim, not the pre-hyphen text
en required by the claim. -/
theorem wikidot_language_counterexample :
    (wikidot_language_fields "en-gb").2 = "en-gb" ∧
    pySplitFirst '-' (wikidot_language_fields "en-gb").1 = "en" ∧
    (wikidot_language_fields "en-gb").2 ≠
      pySplitFirst '-' (wikidot_language_fields "en-gb").1 :=
  ⟨rfl, rfl, by decide⟩

/-- Claim C5 amended: the MediaWiki and DokuWiki profilers set language to
the text of full_language before the first hyphen; the Fextralife, Wikidot
and MinMax profilers copy the page's language attribute into both fields
unchanged, so for them language equals full_language and the pre-hyphen
relation holds only when full_language contains no hyphen. -/
theorem profiler_language_fields :
    (∀ si : Siteinfo,
        (extract_metadata_from_siteinfo si).map (fun m => m.language) =
          (extract_metadata_from_siteinfo si).map
            (fun m => pySplitFirst '-' m.full_language))
    ∧ (∀ s, (dokuwiki_language_fields s).2 = pySplitFirst '-' (dokuwiki_language_fields s).1)
    ∧ (∀ s, (wikidot_language_fields s).2 = (wikidot_language_fields s).1)
    ∧ (∀ s, (fextralife_language_fields s).2 = (fextralife_language_fields s).1)
    ∧ (∀ s, (minmax_language_fields s).2 = (minmax_language_fields s).1) := by
  refine ⟨?_, fun s => rfl, fun s => rfl, fun s => rfl, fun s => rfl⟩
  intro si
  unfold extract_metadata_from_siteinfo
  dsimp only
  repeat' split
  all_goals rfl

/-! ## Claim C8: Wikidot recent-changes overflow detection -/

/-- One parsed entry of the Wikidot site-changes RSS feed. -/
structure WikidotRC where
  published : Int
  author : String
  action : String
deriving DecidableEq, Repr

/-- Actions that do not count as content edits
(wikidot_tools.py line 240). -/
def wikidot_noncontent_actions : List String := ["page move/rename", "file action"]

/-- Authors excluded from the Wikidot active-user count
(wikidot_tools.py line 255). -/
def wikidot_excluded_authors : List String := ["Anonymous", "(account deleted)"]

/-- Activity metrics of the full Wikidot profile, plus whether the
30-entry-overflow warning was emitted. -/
structure WikidotActivity where
  active_users : Option Nat
  recent_edit_count : Option Nat
  latest_edit_timestamp : Option Int
  overflow_warning : Bool
deriving DecidableEq, Repr

/-- Embeds the activity-metric computation of
wikidot_tools.profile_wikidot_wiki (wikidot_tools.py lines 236-267) over the
parsed 30-entry-limited RC feed. When the feed is non-empty and its oldest
published timestamp is still newer than the window end, the wiki had more
than 30 changes in-window, so a warning is emitted and both counts are None;
otherwise the in-window rows are counted. latest_edit_timestamp is computed
from the whole feed either way (line 266). -/
def profile_wikidot_activity (rc : List WikidotRC) (window_end : Int) : WikidotActivity :=
  let latest := ((rc.filter (fun r => !(wikidot_noncontent_actions.contains r.action))).map
      (fun r => r.published)).max?
  let overflow :=
    match (rc.map (fun r => r.published)).min? with
    | some oldest => decide (window_end < oldest)
    | none => false
  if overflow then
    { active_users := none, recent_edit_count := none,
      latest_edit_timestamp := latest, overflow_warning := true }
  else
    let recent := rc.filter (fun r => decide (window_end < r.published))
    { active_users := some (((pyUnique (recent.map (fun r => r.author))).filter
        (fun a => !(wikidot_excluded_authors.contains a))).length),
      recent_edit_count := some ((recent.filter
        (fun r => !(wikidot_noncontent_actions.contains r.action))).length),
      latest_edit_timestamp := latest,
      overflow_warning := false }

/-- Claim C8: whenever the Wikidot RC feed is non-empty and its oldest entry
is still newer than the lookback window end, the full profile reports both
active_users and recent_edit_count as null and emits the overflow warning. -/
theorem wikidot_overflow_nulls (rc : List WikidotRC) (window_end oldest : Int)
    (hmin : (rc.map (fun r => r.published)).min? = some oldest)
    (hnew : window_end < oldest) :
    (profile_wikidot_activity rc window_end).active_users = none ∧
    (profile_wikidot_activity rc window_end).recent_edit_count = none ∧
    (profile_wikidot_activity rc window_end).overflow_warning = true := by
  unfold profile_wikidot_activity
  simp only [hmin, decide_eq_true hnew, if_true]
  exact ⟨trivial, trivial, trivial⟩

/-- Witness for claim C8: a feed whose single entry is newer than the window
end yields null counts and the warning. -/
theorem wikidot_overflow_nulls_witness :
    (profile_wikidot_activity
        [{ published := 100, author := "Alice", action := "page edited" }] 0).active_users
      = none ∧
    (profile_wikidot_activity
        [{ published := 100, author := "Alice", action := "page edited" }] 0).recent_edit_count
      = none ∧
    (profile_wikidot_activity
        [{ published := 100, author := "Alice", action := "page edited" }] 0).overflow_warning
      = true :=
  wikidot_overflow_nulls [{ published := 100, author := "Alice", action := "page edited" }]
    0 100 rfl (by decide)

/-! ## Claim C3: the software detector -/

/-- Wiki software platforms known to the scripts. utils.py lines 21-26
declare MEDIAWIKI, FEXTRALIFE, DOKUWIKI and WIKIDOT; minmax_tools.py adds
the minmax platform. -/
inductive WikiSoftware where
  | mediawiki
  | fextralife
  | dokuwiki
  | wikidot
  | minmax
deriving DecidableEq, Repr

/-- The signals of a fetched page consulted by the software detector. -/
structure ParsedPage where
  generator : Option String
  canonical_host : Option String
  has_wikirequest_script : Bool
  title : Option String
  body_classes : List String
  has_mw_content_container : Bool
deriving DecidableEq, Repr

/-- Modelled from the spec: determine_wiki_software as the ordered decision
list of spec section 4.2. The detector revision implementing the DokuWiki,
Wikidot and MinMax rules is not part of src/: scrapewiki.py lines 149-181
hold an earlier revision covering only the MediaWiki and Fextralife rules,
and utils.py lines 21-26 only declare the DOKUWIKI and WIKIDOT enum
variants. The rules shared with scrapewiki.py (generator, canonical URL,
body class, content container, unknown) keep that revision's relative
order; the DokuWiki, Wikidot and MinMax rules are placed as the spec
orders them. -/
def determine_wiki_software (page : ParsedPage) : Option WikiSoftware :=
  let rule7 : Option WikiSoftware :=
    if page.title = some "MediaWiki API" then some WikiSoftware.mediawiki else none
  let rule6 :=
    if page.has_mw_content_container then some WikiSoftware.mediawiki else rule7
  let rule5 :=
    if page.body_classes.contains "mediawiki" then some WikiSoftware.mediawiki else rule6
  let rule4 :=
    match page.title with
    | some t => if pyEndsWith t "| MinMax" then some WikiSoftware.minmax else rule5
    | none => rule5
  let rule3 :=
    if page.has_wikirequest_script then some WikiSoftware.wikidot else rule4
  let rule2 :=
    match page.canonical_host with
    | some host =>
        if pyEndsWith host "fextralife.com" then some WikiSoftware.fextralife
        else if pyEndsWith host "wikidot.com" then some WikiSoftware.wikidot
        else if pyEndsWith host "minmax.wiki" then some WikiSoftware.minmax
        else rule3
    | none => rule3
  match page.generator with
  | some g =>
      if pyStartsWith g "MediaWiki" then some WikiSoftware.mediawiki
      else if g = "DokuWiki" then some WikiSoftware.dokuwiki
      else rule2
  | none => rule2

/-- Claim C3: the detector is an ordered first-match decision list. A
generator value beginning with MediaWiki decides mediawiki and a generator
equal to DokuWiki decides dokuwiki no matter what every later signal
(canonical URL, title, body class, content container) says; and a page
matching no rule yields the unknown outcome none as an ordinary return
value of the total function. -/
theorem determine_wiki_software_decision_list (page : ParsedPage) :
    (∀ g, page.generator = some g → pyStartsWith g "MediaWiki" = true →
        determine_wiki_software page = some WikiSoftware.mediawiki)
    ∧ (page.generator = some "DokuWiki" →
        determine_wiki_software page = some WikiSoftware.dokuwiki)
    ∧ ((match page.generator with
          | some g => pyStartsWith g "MediaWiki" = false ∧ g ≠ "DokuWiki"
          | none => True) →
       (match page.canonical_host with
          | some host => pyEndsWith host "fextralife.com" = false ∧
              pyEndsWith host "wikidot.com" = false ∧ pyEndsWith host "minmax.wiki" = false
          | none => True) →
       page.has_wikirequest_script = false →
       (match page.title with
          | some t => pyEndsWith t "| MinMax" = false ∧ t ≠ "MediaWiki API"
          | none => True) →
       page.body_classes.contains "mediawiki" = false →
       page.has_mw_content_container = false →
       determine_wiki_software page = none) := by
  obtain ⟨gen, canon, script, title, classes, container⟩ := page
  refine ⟨?_, ?_, ?_⟩
  · intro g hg hstart
    dsimp only at hg
    subst hg
    simp only [determine_wiki_software, hstart, if_true]
  · intro hg
    dsimp only at hg
    subst hg
    simp only [determine_wiki_software]
    rfl
  · intro hgen hcanon hscript htitle hbody hcontainer
    dsimp only at hgen hcanon hscript htitle hbody hcontainer
    subst hscript hcontainer
    cases gen <;> cases canon <;> cases title <;>
      simp_all [determine_wiki_software]

/-- Page whose generator says MediaWiki while every weaker signal points at
Wikidot: used to witness that the generator rule wins. -/
def pageGeneratorVsUrl : ParsedPage :=
  { generator := some "MediaWiki 1.39.5", canonical_host := some "scp-wiki.wikidot.com",
    has_wikirequest_script := true, title := some "SCP Foundation",
    body_classes := [], has_mw_content_container := false }

/-- Page whose generator says DokuWiki while body class and content container
point at MediaWiki. -/
def pageDokuGenerator : ParsedPage :=
  { generator := some "DokuWiki", canonical_host := none,
    has_wikirequest_script := false, title := some "start [Some Wiki]",
    body_classes := ["mediawiki"], has_mw_content_container := true }

/-- Page matching no detection rule. -/
def pageUnknownPlatform : ParsedPage :=
  { generator := none, canonical_host := some "blog.example.org",
    has_wikirequest_script := false, title := some "Just a blog",
    body_classes := ["home"], has_mw_content_container := false }

/-- Witness for claim C3: the two generator rules override the later signals
on concrete pages, and a page matching no rule gets the unknown outcome as a
plain value. -/
theorem determine_wiki_software_decision_list_witness :
    determine_wiki_software pageGeneratorVsUrl = some WikiSoftware.mediawiki ∧
    determine_wiki_software pageDokuGenerator = some WikiSoftware.dokuwiki ∧
    determine_wiki_software pageUnknownPlatform = none :=
  ⟨(determine_wiki_software_decision_list pageGeneratorVsUrl).1 "MediaWiki 1.39.5" rfl rfl,
   (determine_wiki_software_decision_list pageDokuGenerator).2.1 rfl,
   (determine_wiki_software_decision_list pageUnknownPlatform).2.2 trivial ⟨rfl, rfl, rfl⟩
     rfl ⟨rfl, by decide⟩ rfl rfl⟩

/-! ## Claim C4: the redirect-entry builder and its auto-derived id -/

/-- The standardized site-properties dict of addredirect.py
(extract_site_metadata_from_siteinfo, lines 336-347), restricted to the keys
the entry builder reads. -/
structure SiteProps where
  name : String
  base_url : String
  language : String
  main_page : String
  content_path : String
  search_path : String
  wikifarm : Option String
deriving DecidableEq, Repr

/-- Embeds addredirect.generate_origin_entry (addredirect.py lines 415-422)
as the literal key/value pairs of the Python dict it builds. -/
def generate_origin_entry (origin_site_metadata : SiteProps) : List (String × String) :=
  [("origin", origin_site_metadata.name),
   ("origin_base_url", origin_site_metadata.base_url),
   ("origin_content_path", origin_site_metadata.content_path),
   ("origin_main_page", origin_site_metadata.main_page)]

/-- Model of a Python dict lookup d[key]: KeyError (an Except.error carrying
the missing key) when the key is absent. -/
def dictGet (d : List (String × String)) (key : String) : Except String String :=
  match d.find? (fun p => p.1 == key) with
  | some p => Except.ok p.2
  | none => Except.error key

/-- Embeds addredirect.extract_topic_from_url (addredirect.py lines 351-358):
the first dot-separated label of the hostname with hyphens removed. -/
def extract_topic_from_url (wiki_url : String) : String :=
  let hostname := pyStrOpt (pyHostname (normalize_url_protocol wiki_url))
  pyReplace (pySplitFirst '.' hostname) "-" ""

/-- Embeds addredirect.generate_entry_id (addredirect.py lines 361-373). -/
def generate_entry_id (language : String) (origin_url : String) : String :=
  language ++ "-" ++ extract_topic_from_url origin_url

/-- Embeds addredirect.generate_redirect_entry (addredirect.py lines
425-463). When no entry id is supplied, line 443 reads
origin_entry["base_url"], modelled by dictGet, which yields KeyError exactly
when the key is absent from the dict built by generate_origin_entry. -/
def generate_redirect_entry (origin_site_metadata destination_site_metadata : SiteProps)
    (entry_id : Option String) : Except String RedirectEntry :=
  let origin_entry := generate_origin_entry origin_site_metadata
  let id_result : Except String String :=
    match entry_id with
    | some eid => Except.ok eid
    | none =>
        match dictGet origin_entry "base_url" with
        | Except.error k => Except.error k
        | Except.ok b =>
            Except.ok (generate_entry_id destination_site_metadata.language b)
  match id_result with
  | Except.error k => Except.error k
  | Except.ok eid =>
      Except.ok {
        id := eid,
        origins_label := origin_site_metadata.name,
        origins := [{ origin := origin_site_metadata.name,
                      origin_base_url := origin_site_metadata.base_url,
                      origin_content_path := origin_site_metadata.content_path,
                      origin_main_page := origin_site_metadata.main_page }],
        destination := destination_site_metadata.name,
        destination_base_url := destination_site_metadata.base_url,
        destination_platform := "mediawiki",
        destination_icon := none,
        destination_main_page := destination_site_metadata.main_page,
        destination_search_path := destination_site_metadata.search_path,
        tags := destination_site_metadata.wikifarm.map (fun wf => [wf]) }

/-- Claim C4 evaluated on the code: calling the builder without an explicit
entry id always raises KeyError for the key base_url, for every pair of
metadata records, because generate_redirect_entry reads
origin_entry["base_url"] while generate_origin_entry stores that value under
the key origin_base_url. The auto-derived id the claim (and the function's
own docstring) describes is never produced. -/
theorem generate_redirect_entry_auto_id_keyerror
    (origin_site_metadata destination_site_metadata : SiteProps) :
    generate_redirect_entry origin_site_metadata destination_site_metadata none =
      Except.error "base_url" := rfl
